import Mathlib

/-!
Verification development for the TextDetectionDatasetViewer repository:
a shallow embedding of the dataset abstraction layer (MSRA-TD500 parser,
geometric normalization, dataset construction, navigation state) together
with theorems settling the specification's claims about it.

Python conventions used by the embedding:
* machine integers are `Int` (Python ints are unbounded);
* floating point values are modelled as exact reals (`Real`), with the
  decimal literals parsed into `Rat`;
* a raised exception is an `Except.error` carrying a `PyErr` value that
  names the Python exception class;
* a Python list is a `List`, a dict with string keys is an insertion-ordered
  association list `List (String × _)` (the keys in this code base are
  distinct).
-/

/-- Python exception classes raised by the embedded code, together with the
spec's own error taxonomy (§7).  The taxonomy constructors (`parseError`,
`missingResourceError`, `emptyDatasetError`, `invalidSubsetError`) appear in
the spec only; no class of that name exists anywhere in the code. -/
inductive PyErr where
  | valueError : PyErr
  | indexError : PyErr
  | keyError : PyErr
  | zeroDivisionError : PyErr
  | parseError (file : String) (line : Nat) : PyErr
  | missingResourceError : PyErr
  | emptyDatasetError : PyErr
  | invalidSubsetError : PyErr
  deriving DecidableEq, Repr

/-- Python list indexing `l[i]` with an `int` index: a negative index counts
from the end; an index out of range raises IndexError (here: `none`). -/
def pyGet {α : Type} (l : List α) (i : Int) : Option α :=
  if 0 ≤ i then l.get? i.toNat
  else if 0 ≤ i + l.length then l.get? (i + l.length).toNat
  else none

namespace Viewer

/-- Embeds `ViewerDataset.Subset` (viewer/viewer_modules/viewer_dataset.py):
a list of samples plus a mutable current index.  The index is an `Int`
because `set_index` stores any Python int unvalidated. -/
structure Subset (α : Type) where
  _subset : List α
  _current_idx : Int

namespace Subset

variable {α : Type}

/-- `Subset.next_sample`: `self._current_idx = (self._current_idx + 1) %
len(self._subset)` then `return self._subset[self._current_idx]`.
On an empty subset Python's `% 0` raises ZeroDivisionError. -/
def next_sample (s : Subset α) : Except PyErr (α × Subset α) :=
  if s._subset.length = 0 then .error .zeroDivisionError
  else
    let idx := (s._current_idx + 1) % (s._subset.length : Int)
    match pyGet s._subset idx with
    | none => .error .indexError
    | some v => .ok (v, { s with _current_idx := idx })

/-- `Subset.previous_sample`: `idx = self._current_idx - 1;
self._current_idx = idx if idx >= 0 else len(self._subset) - 1;
return self._subset[self._current_idx]`. -/
def previous_sample (s : Subset α) : Except PyErr (α × Subset α) :=
  let idx0 := s._current_idx - 1
  let idx := if 0 ≤ idx0 then idx0 else (s._subset.length : Int) - 1
  match pyGet s._subset idx with
  | none => .error .indexError
  | some v => .ok (v, { s with _current_idx := idx })

/-- `Subset.set_index`: stores the new index without any validation. -/
def set_index (s : Subset α) (idx : Int) : Subset α :=
  { s with _current_idx := idx }

/-- `Subset.get_current_sample`: `return self._subset[self._current_idx]`. -/
def get_current_sample (s : Subset α) : Except PyErr α :=
  match pyGet s._subset s._current_idx with
  | none => .error .indexError
  | some v => .ok v

/-- `Subset.get_current_index`. -/
def get_current_index (s : Subset α) : Int :=
  s._current_idx

/-- The subset state after `k` successive `next_sample` calls. -/
def run_next (s : Subset α) : Nat → Except PyErr (Subset α)
  | 0 => .ok s
  | k + 1 => (s.run_next k).bind (fun s2 => (s2.next_sample).map Prod.snd)

/-- The subset state after `k` successive `previous_sample` calls. -/
def run_prev (s : Subset α) : Nat → Except PyErr (Subset α)
  | 0 => .ok s
  | k + 1 => (s.run_prev k).bind (fun s2 => (s2.previous_sample).map Prod.snd)

end Subset

end Viewer

/-- The whitespace characters Python's str.split() splits on. -/
def isPyWs (c : Char) : Bool :=
  c = ' ' || c = '\t' || c = '\n' || c = '\r' || c = '\x0b' || c = '\x0c'

/-- Accumulating splitter behind pySplit. -/
def splitWsAux : List Char → List Char → List (List Char)
  | [], cur => if cur.isEmpty then [] else [cur.reverse]
  | c :: cs, cur =>
    if isPyWs c then
      if cur.isEmpty then splitWsAux cs []
      else cur.reverse :: splitWsAux cs []
    else splitWsAux cs (c :: cur)

/-- Python str.split() with no arguments: split on whitespace runs and drop
empty pieces. -/
def pySplit (s : String) : List String :=
  (splitWsAux s.toList []).map (fun cs => String.mk cs)

/-- Strip leading and trailing whitespace from a character list. -/
def stripWs (cs : List Char) : List Char :=
  ((cs.dropWhile isPyWs).reverse.dropWhile isPyWs).reverse

/-- Value of a non-empty all-digit character list; none otherwise. -/
def digitsToNat (cs : List Char) : Option Nat :=
  if cs.isEmpty then none
  else if cs.all Char.isDigit then
    some (cs.foldl (fun a c => a * 10 + (c.toNat - 48)) 0)
  else none

/-- Python int(str): optional surrounding whitespace, optional sign, at
least one decimal digit.  (Underscore group separators are not modelled;
no token of that shape occurs in the formats at hand.) -/
def pyInt (s : String) : Option Int :=
  match stripWs s.toList with
  | '-' :: cs => (digitsToNat cs).map (fun n => -(n : Int))
  | '+' :: cs => (digitsToNat cs).map (fun n => (n : Int))
  | cs => (digitsToNat cs).map (fun n => (n : Int))

/-- Split a character list at the first character satisfying p, dropping the
separator; none when no such character occurs. -/
def splitAtChar (p : Char → Bool) : List Char → Option (List Char × List Char)
  | [] => none
  | c :: cs =>
    if p c then some ([], cs)
    else (splitAtChar p cs).map (fun r => (c :: r.1, r.2))

/-- Numeric value of a digit list (validity checked by the caller). -/
def digitsVal (cs : List Char) : Nat :=
  cs.foldl (fun a c => a * 10 + (c.toNat - 48)) 0

/-- Decimal mantissa `digits[.digits]`: the digit value with the fraction
length; at least one digit must be present. -/
def mantissaParts (cs : List Char) : Option (Nat × Nat) :=
  match splitAtChar (fun c => c = '.') cs with
  | none =>
    if cs.isEmpty || !cs.all Char.isDigit then none
    else some (digitsVal cs, 0)
  | some (ip, fp) =>
    if (ip.isEmpty && fp.isEmpty) || !ip.all Char.isDigit || !fp.all Char.isDigit
    then none
    else some (digitsVal (ip ++ fp), fp.length)

/-- An optionally signed digit run (the exponent of a float literal). -/
def signedDigitsToInt (cs : List Char) : Option Int :=
  match cs with
  | '-' :: ds => (digitsToNat ds).map (fun n => -(n : Int))
  | '+' :: ds => (digitsToNat ds).map (fun n => (n : Int))
  | ds => (digitsToNat ds).map (fun n => (n : Int))

/-- Python float(str) on finite decimal literals
`[sign] digits [. digits] [e [sign] digits]`, parsed exactly as a scaled
decimal `num * 10 ^ exp` (see decVal).  The inf/nan spellings have no such
value and are outside this model; no token of that shape occurs in the
dataset format. -/
def pyFloat (s : String) : Option (Int × Int) :=
  let body := stripWs s.toList
  let sign : Int := match body with | '-' :: _ => -1 | _ => 1
  let rest : List Char := match body with
    | '-' :: cs => cs
    | '+' :: cs => cs
    | cs => cs
  match splitAtChar (fun c => c = 'e' || c = 'E') rest with
  | none => (mantissaParts rest).map (fun m => (sign * m.1, -(m.2 : Int)))
  | some (m, e) =>
    match mantissaParts m, signedDigitsToInt e with
    | some mv, some ev => some (sign * mv.1, ev - (mv.2 : Int))
    | _, _ => none

/-- The exact rational value of a parsed float literal. -/
def decVal (p : Int × Int) : Rat := (p.1 : Rat) * (10 : Rat) ^ p.2


noncomputable section Geometry

/-- Modelled from the spec: the geometry module
(utils/numpy_utils/numpy_functions.py, imported by the MSRA parser) is not
among the supplied sources.  §4.1: standard 2D rotation of one point about a
pivot, `x' = pivot.x + (x-pivot.x)·cos θ - (y-pivot.y)·sin θ`,
`y' = pivot.y + (x-pivot.x)·sin θ + (y-pivot.y)·cos θ`. -/
def rotate_point (pivot p : ℝ × ℝ) (θ : ℝ) : ℝ × ℝ :=
  (pivot.1 + (p.1 - pivot.1) * Real.cos θ - (p.2 - pivot.2) * Real.sin θ,
   pivot.2 + (p.1 - pivot.1) * Real.sin θ + (p.2 - pivot.2) * Real.cos θ)

/-- Modelled from the spec: rotate_rectangle rotates every corner by the
angle — in radians (§4.2: "a rotation in radians applied about that box's
own geometry") — about the rectangle's own first corner (§4.1: "about the
rectangle's own first corner, matching the source convention"). -/
def rotate_rectangle (points : List (ℝ × ℝ)) (angle : ℝ) : List (ℝ × ℝ) :=
  match points with
  | [] => []
  | p0 :: _ => points.map (fun p => rotate_point p0 p angle)

/-- Python min() over a non-empty list of reals (the code never reaches the
empty case: min/max there are always applied to the four corners). -/
def listMin : List ℝ → ℝ
  | [] => 0
  | x :: xs => xs.foldl min x

/-- Python max() over a non-empty list of reals. -/
def listMax : List ℝ → ℝ
  | [] => 0
  | x :: xs => xs.foldl max x

/-- Embeds MSRA_TD500_annotation.normalize_bboxes
(datasets/MSRA_TD500.py): build the four corners in the order top-left,
bottom-left, bottom-right, top-right, rotate them with the geometry module,
and take the enclosing axis-aligned box.  `min(points, key=p[0])[0]` is the
minimum of the first coordinates, and so on for the other three; the int()
re-conversions in the source are no-ops on the already-int inputs. -/
def normalize_bboxes (x y w h : Int) (angle : Rat) : ℝ × ℝ × ℝ × ℝ :=
  let xlu : ℝ := (x : ℝ)
  let ylu : ℝ := (y : ℝ)
  let xrd : ℝ := xlu + (w : ℝ)
  let yrd : ℝ := ylu + (h : ℝ)
  let xld : ℝ := xlu
  let yld : ℝ := yrd
  let xru : ℝ := xrd
  let yru : ℝ := ylu
  let points := rotate_rectangle
    [(xlu, ylu), (xld, yld), (xrd, yrd), (xru, yru)] ((angle : ℝ))
  (listMin (points.map Prod.fst), listMin (points.map Prod.snd),
   listMax (points.map Prod.fst), listMax (points.map Prod.snd))

end Geometry

/-- Embeds MSRA_TD500_annotation (datasets/MSRA_TD500.py), including the
xyxy box handed to the BaseTextDetectionAnnotation constructor (that base
class is not among the supplied sources; modelled from the spec §3 as plain
x1,y1,x2,y2 storage). -/
structure MSRA_annot where
  difficult : Bool
  idx : Int
  x1 : ℝ
  y1 : ℝ
  x2 : ℝ
  y2 : ℝ

/-- The annotation assembled from the seven already-converted fields:
difficult = (difficult token == "1"), idx, and the normalized box. -/
noncomputable def MSRA_annot.build
    (difficult_tok : String) (i x y w h : Int) (angle : Rat) : MSRA_annot :=
  let r := normalize_bboxes x y w h angle
  { difficult := difficult_tok == "1", idx := i,
    x1 := r.1, y1 := r.2.1, x2 := r.2.2.1, y2 := r.2.2.2 }

/-- Embeds MSRA_TD500_annotation.__init__: split the record into exactly
seven tokens and convert idx, x, y, w, h with int() and angle with float().
A token count other than seven (tuple unpacking) and every failed
conversion raise ValueError; the source converts one field at a time, but
since each failure raises the same ValueError the simultaneous match is
observationally equal. -/
noncomputable def MSRA_annot.ofString (annot_str : String) :
    Except PyErr MSRA_annot :=
  match pySplit annot_str with
  | [t0, t1, t2, t3, t4, t5, t6] =>
    match pyInt t0, pyInt t2, pyInt t3, pyInt t4, pyInt t5, pyFloat t6 with
    | some i, some x, some y, some w, some h, some a =>
        .ok (MSRA_annot.build t1 i x y w h (decVal a))
    | _, _, _, _, _, _ => .error .valueError
  | _ => .error .valueError

/-- Embeds MSRA_TD500_dataset.read_annotation_file: parse every line of the
file in order, appending each annotation; the first exception aborts the
whole read (no record is caught and skipped).  A file is its list of
lines. -/
noncomputable def read_annot_file : List String → Except PyErr (List MSRA_annot)
  | [] => .ok []
  | l :: ls =>
    match MSRA_annot.ofString l with
    | .error e => .error e
    | .ok a => (read_annot_file ls).map (fun as => a :: as)

/-- Embeds MSRA_TD500_sample / BaseTextDetectionSample (base class not among
the supplied sources; modelled from the spec §3: an image path plus the
ordered annotations). -/
structure MSRA_sample where
  img_pth : String
  annots : List MSRA_annot

/-- A directory is its file entries: file name plus (for .gt files) lines. -/
abbrev PyDir := List (String × List String)

/-- Lexicographic comparison of file names, as Python compares the path
strings when sorting. -/
def charListLe : List Char → List Char → Bool
  | [], _ => true
  | _ :: _, [] => false
  | c :: cs, d :: ds =>
    if c < d then true
    else if d < c then false
    else charListLe cs ds

/-- Name order on directory entries. -/
def nameLe (a b : String) : Bool := charListLe a.toList b.toList

/-- Insertion step for the name-ordered sort below. -/
def insertFile (x : String × List String) :
    List (String × List String) → List (String × List String)
  | [] => [x]
  | y :: ys => if nameLe x.1 y.1 then x :: y :: ys else y :: insertFile x ys

/-- Python list.sort() on paths: sort the entries by file name. -/
def sortFiles (l : PyDir) : PyDir := l.foldr insertFile []

/-- The fnmatch check behind the glob patterns `*.gt` / `*.JPG`: the file
name ends with the literal suffix. -/
def nameEndsWith (f : String) (suffix : String) : Bool :=
  suffix.toList.reverse.isPrefixOf f.toList.reverse

/-- The loop body of read_set: one sample per zipped (annotation file,
image path) pair, aborting at the first exception. -/
noncomputable def buildSamples :
    List ((String × List String) × (String × List String)) →
      Except PyErr (List MSRA_sample)
  | [] => .ok []
  | p :: ps =>
    match read_annot_file p.1.2 with
    | .error e => .error e
    | .ok as => (buildSamples ps).map (fun rest => ⟨p.2.1, as⟩ :: rest)

/-- Embeds MSRA_TD500_dataset.read_set: glob the `*.gt` and `*.JPG` files,
sort both lists, pair them positionally with zip — which silently truncates
to the shorter list — and build one sample per pair from the annotation
file's lines and the image path. -/
noncomputable def read_set (set_dir : PyDir) :
    Except PyErr (List MSRA_sample) :=
  buildSamples ((sortFiles (set_dir.filter (fun f => nameEndsWith f.1 ".gt"))).zip
    (sortFiles (set_dir.filter (fun f => nameEndsWith f.1 ".JPG"))))

/-- Embeds MSRA_TD500_dataset with its BaseTextDetectionDataset storage
(base class not among the supplied sources; modelled from the spec: it holds
the root folder and the subset dict that __init__ fills). -/
structure MSRA_dataset where
  dset_folder : String
  _subsets : List (String × List MSRA_sample)

/-- Modelled from the spec (§6 `Dataset.subset_names()`; the base class is
not among the supplied sources): the keys of the subset mapping, in order. -/
def MSRA_dataset.get_subsets_names (d : MSRA_dataset) : List String :=
  d._subsets.map Prod.fst

/-- Embeds MSRA_TD500_dataset.__init__: read `train/` and `test/` under the
root and store both subsets unconditionally.  pathlib's glob on an absent
directory yields no entries, so an absent folder behaves as an empty
directory and read_set returns an empty sample list rather than failing. -/
noncomputable def MSRA_dataset.openRoot (dset_folder : String)
    (train_dir : Option PyDir) (test_dir : Option PyDir) :
    Except PyErr MSRA_dataset :=
  match read_set (train_dir.getD []) with
  | .error e => .error e
  | .ok train_samples =>
    match read_set (test_dir.getD []) with
    | .error e => .error e
    | .ok test_samples =>
      .ok { dset_folder := dset_folder,
            _subsets := [("train", train_samples), ("test", test_samples)] }

/-- Embeds ViewerDataset (viewer/viewer_modules/viewer_dataset.py): the
cursors over the non-empty subsets plus the current subset name. -/
structure ViewerDataset where
  _subsets : List (String × Viewer.Subset MSRA_sample)
  _current_subset : String

/-- Embeds ViewerDataset.__init__: keep the non-empty subsets in the
dataset's key order, each wrapped in a cursor starting at index 0, and
select the first remaining key; on an all-empty dataset
`list(self._subsets.keys())[0]` raises IndexError. -/
def ViewerDataset.init (dataset : MSRA_dataset) : Except PyErr ViewerDataset :=
  let subsets := (dataset._subsets.filter (fun p => p.2.length != 0)).map
    (fun p => (p.1, (⟨p.2, 0⟩ : Viewer.Subset MSRA_sample)))
  match subsets with
  | [] => .error .indexError
  | (name, _) :: _ => .ok { _subsets := subsets, _current_subset := name }

/-- Embeds ViewerDataset.available_subsets: the keys of the subset dict. -/
def ViewerDataset.available_subsets (v : ViewerDataset) : List String :=
  v._subsets.map Prod.fst

/-- Embeds ViewerDataset.get_current_subset: the dict access
`self._subsets[self._current_subset]`; a missing key raises KeyError. -/
def ViewerDataset.get_current_subset (v : ViewerDataset) :
    Except PyErr (Viewer.Subset MSRA_sample) :=
  match v._subsets.lookup v._current_subset with
  | some s => .ok s
  | none => .error .keyError

/-- Embeds ViewerDataset.set_current_subset: stores the new name with no
validation of any kind. -/
def ViewerDataset.set_current_subset (v : ViewerDataset)
    (subset_name : String) : ViewerDataset :=
  { v with _current_subset := subset_name }

/-- A malformed record in C6's sense: a token count different from seven, or
a non-numeric index, x, y, w, h or angle field. -/
def malformedLine (s : String) : Bool :=
  match pySplit s with
  | [t0, _, t2, t3, t4, t5, t6] =>
    (pyInt t0).isNone || (pyInt t2).isNone || (pyInt t3).isNone ||
    (pyInt t4).isNone || (pyInt t5).isNone || (pyFloat t6).isNone
  | _ => true


section SubsetLemmas

variable {α : Type}

theorem pyGet_of_valid (l : List α) (i : Int) (h0 : 0 ≤ i) (hl : i < l.length) :
    pyGet l i = l.get? i.toNat := by
  simp [pyGet, h0]

theorem pyGet_valid_some (l : List α) (i : Int) (h0 : 0 ≤ i) (hl : i < l.length) :
    pyGet l i = some (l.get ⟨i.toNat, by omega⟩) := by
  rw [pyGet_of_valid _ _ h0 hl, List.get?_eq_get (by omega)]

theorem next_sample_spec (s : Viewer.Subset α) (hpos : 0 < s._subset.length) :
    s.next_sample =
      .ok (s._subset.get
            ⟨((s._current_idx + 1) % (s._subset.length : Int)).toNat, by
              have hnn : 0 ≤ (s._current_idx + 1) % (s._subset.length : Int) :=
                Int.emod_nonneg _ (by omega)
              have hlt : (s._current_idx + 1) % (s._subset.length : Int) <
                  (s._subset.length : Int) :=
                Int.emod_lt_of_pos _ (by omega)
              omega⟩,
          { s with _current_idx := (s._current_idx + 1) % (s._subset.length : Int) }) := by
  have hne : ¬ s._subset.length = 0 := by omega
  have hnn : 0 ≤ (s._current_idx + 1) % (s._subset.length : Int) :=
    Int.emod_nonneg _ (by omega)
  have hlt : (s._current_idx + 1) % (s._subset.length : Int) < (s._subset.length : Int) :=
    Int.emod_lt_of_pos _ (by omega)
  have hget := pyGet_valid_some s._subset _ hnn (by omega)
  simp only [Viewer.Subset.next_sample, if_neg hne, hget]

theorem prev_sample_spec (s : Viewer.Subset α) (hpos : 0 < s._subset.length)
    (h0 : 0 ≤ s._current_idx) (hlt : s._current_idx < (s._subset.length : Int)) :
    s.previous_sample =
      .ok (s._subset.get
            ⟨((s._current_idx - 1) % (s._subset.length : Int)).toNat, by
              have hnn : 0 ≤ (s._current_idx - 1) % (s._subset.length : Int) :=
                Int.emod_nonneg _ (by omega)
              have hlt2 : (s._current_idx - 1) % (s._subset.length : Int) <
                  (s._subset.length : Int) :=
                Int.emod_lt_of_pos _ (by omega)
              omega⟩,
          { s with _current_idx := (s._current_idx - 1) % (s._subset.length : Int) }) := by
  have hmod : (if 0 ≤ s._current_idx - 1 then s._current_idx - 1
      else (s._subset.length : Int) - 1) =
      (s._current_idx - 1) % (s._subset.length : Int) := by
    by_cases hc : 0 ≤ s._current_idx - 1
    · rw [if_pos hc, Int.emod_eq_of_lt hc (by omega)]
    · rw [if_neg hc]
      have hz : s._current_idx = 0 := by omega
      rw [hz]
      have h1 : (0 - 1 : Int) % (s._subset.length : Int) =
          (0 - 1 + 1 * (s._subset.length : Int)) % (s._subset.length : Int) :=
        (Int.add_mul_emod_self).symm
      rw [h1, Int.emod_eq_of_lt (by omega) (by omega)]
      omega
  have hnn : 0 ≤ (s._current_idx - 1) % (s._subset.length : Int) :=
    Int.emod_nonneg _ (by omega)
  have hlt2 : (s._current_idx - 1) % (s._subset.length : Int) < (s._subset.length : Int) :=
    Int.emod_lt_of_pos _ (by omega)
  have hget := pyGet_valid_some s._subset _ hnn (by omega)
  simp only [Viewer.Subset.previous_sample, hmod, hget]

theorem run_next_spec (s : Viewer.Subset α) (hpos : 0 < s._subset.length)
    (h0 : 0 ≤ s._current_idx) (hlt : s._current_idx < (s._subset.length : Int)) :
    ∀ k : Nat, s.run_next k =
      .ok { s with _current_idx :=
              (s._current_idx + k) % (s._subset.length : Int) } := by
  intro k
  induction k with
  | zero =>
      simp only [Viewer.Subset.run_next, Nat.cast_zero, add_zero]
      rw [Int.emod_eq_of_lt h0 hlt]
  | succ k ih =>
      simp only [Viewer.Subset.run_next, ih, Except.bind]
      rw [next_sample_spec _ (by simpa using hpos)]
      simp only [Except.map]
      congr 1
      have h1 : ((s._current_idx + (k : Int)) % (s._subset.length : Int) + 1) %
          (s._subset.length : Int) =
          (s._current_idx + (k : Int) + 1) % (s._subset.length : Int) :=
        Int.emod_add_emod _ _ _
      simp only [h1]
      push_cast
      ring_nf

theorem run_prev_spec (s : Viewer.Subset α) (hpos : 0 < s._subset.length)
    (h0 : 0 ≤ s._current_idx) (hlt : s._current_idx < (s._subset.length : Int)) :
    ∀ k : Nat, s.run_prev k =
      .ok { s with _current_idx :=
              (s._current_idx - k) % (s._subset.length : Int) } := by
  intro k
  induction k with
  | zero =>
      simp only [Viewer.Subset.run_prev, Nat.cast_zero, sub_zero]
      rw [Int.emod_eq_of_lt h0 hlt]
  | succ k ih =>
      simp only [Viewer.Subset.run_prev, ih, Except.bind]
      have hnn : 0 ≤ (s._current_idx - (k : Int)) % (s._subset.length : Int) :=
        Int.emod_nonneg _ (by omega)
      have hlt2 : (s._current_idx - (k : Int)) % (s._subset.length : Int) <
          (s._subset.length : Int) :=
        Int.emod_lt_of_pos _ (by omega)
      rw [prev_sample_spec _ (by simpa using hpos) (by simpa using hnn)
        (by simpa using hlt2)]
      simp only [Except.map]
      congr 1
      have h1 : ((s._current_idx - (k : Int)) % (s._subset.length : Int) + (-1)) %
          (s._subset.length : Int) =
          (s._current_idx - (k : Int) + (-1)) % (s._subset.length : Int) :=
        Int.emod_add_emod _ _ _
      have h2 : ∀ a : Int, a - 1 = a + (-1) := by intro a; ring
      rw [h2, h1]
      push_cast
      ring_nf

end SubsetLemmas

/-- C4: for every Subset cursor over a non-empty sample list of length n and
every valid starting index in [0, n), calling next_sample exactly n times
returns the cursor to the starting index (the final state is the starting
state), and the n-th call returns the sample at that starting index; the same
holds for n calls of previous_sample. -/
theorem C4_cursor_circularity {α : Type} (s : Viewer.Subset α) (n : Nat)
    (hn : s._subset.length = n) (hpos : 0 < n)
    (h0 : 0 ≤ s._current_idx) (hlt : s._current_idx < (n : Int)) :
    ∃ v, pyGet s._subset s._current_idx = some v ∧
      (s.run_next (n - 1)).bind Viewer.Subset.next_sample = .ok (v, s) ∧
      (s.run_prev (n - 1)).bind Viewer.Subset.previous_sample = .ok (v, s) := by
  subst hn
  have hlen : 0 < s._subset.length := hpos
  set L : Int := (s._subset.length : Int) with hL
  have hLpos : 0 < L := by omega
  have hcast : ((s._subset.length - 1 : Nat) : Int) = L - 1 := by
    rw [hL]
    omega
  refine ⟨s._subset.get ⟨s._current_idx.toNat, by omega⟩,
    pyGet_valid_some _ _ h0 hlt, ?_, ?_⟩
  · rw [run_next_spec s hlen h0 hlt]
    simp only [Except.bind]
    rw [next_sample_spec _ (by simpa using hlen)]
    have hj : ((s._current_idx + ((s._subset.length - 1 : Nat) : Int)) % L + 1) % L =
        s._current_idx := by
      rw [Int.emod_add_emod, hcast,
        show s._current_idx + (L - 1) + 1 = s._current_idx + 1 * L by ring,
        Int.add_mul_emod_self, Int.emod_eq_of_lt h0 hlt]
    simp only [hj]
  · rw [run_prev_spec s hlen h0 hlt]
    simp only [Except.bind]
    have hnn : 0 ≤ (s._current_idx - ((s._subset.length - 1 : Nat) : Int)) % L :=
      Int.emod_nonneg _ (by omega)
    have hlt2 : (s._current_idx - ((s._subset.length - 1 : Nat) : Int)) % L < L :=
      Int.emod_lt_of_pos _ (by omega)
    rw [prev_sample_spec _ (by simpa using hlen) (by simpa using hnn)
      (by simpa using hlt2)]
    have hj : ((s._current_idx - ((s._subset.length - 1 : Nat) : Int)) % L - 1) % L =
        s._current_idx := by
      rw [show ∀ a : Int, a - 1 = a + (-1) from fun a => by ring, Int.emod_add_emod,
        hcast,
        show s._current_idx - (L - 1) + (-1) = s._current_idx + (-1) * L by ring,
        Int.add_mul_emod_self, Int.emod_eq_of_lt h0 hlt]
    simp only [hj]

/-- Witness for C4 on the three-element subset ["a","b","c"] with starting
index 1. -/
theorem C4_cursor_circularity_witness :
    (⟨["a", "b", "c"], 1⟩ : Viewer.Subset String)._subset.length = 3 ∧
    0 < 3 ∧
    0 ≤ (⟨["a", "b", "c"], 1⟩ : Viewer.Subset String)._current_idx ∧
    (⟨["a", "b", "c"], 1⟩ : Viewer.Subset String)._current_idx < ((3 : Nat) : Int) ∧
    (∃ v, pyGet (⟨["a", "b", "c"], 1⟩ : Viewer.Subset String)._subset
        (⟨["a", "b", "c"], 1⟩ : Viewer.Subset String)._current_idx = some v ∧
      ((⟨["a", "b", "c"], 1⟩ : Viewer.Subset String).run_next (3 - 1)).bind
          Viewer.Subset.next_sample = .ok (v, (⟨["a", "b", "c"], 1⟩ : Viewer.Subset String)) ∧
      ((⟨["a", "b", "c"], 1⟩ : Viewer.Subset String).run_prev (3 - 1)).bind
          Viewer.Subset.previous_sample =
        .ok (v, (⟨["a", "b", "c"], 1⟩ : Viewer.Subset String))) :=
  ⟨rfl, by omega, by decide, by decide,
    C4_cursor_circularity (⟨["a", "b", "c"], 1⟩ : Viewer.Subset String) 3 rfl
      (by omega) (by decide) (by decide)⟩

/-- C10: for every Subset cursor over a non-empty sample list and every
integer current index — including out-of-range values stored unvalidated by
set_index — one call to next_sample leaves the current index inside
[0, len(subset)) and returns the sample at that index (Python's `%` by a
positive length is non-negative). -/
theorem C10_next_sample_restores_invariant {α : Type} (s : Viewer.Subset α)
    (i : Int) (hpos : 0 < s._subset.length) :
    (s.set_index i)._current_idx = i ∧
    ∃ v s2, (s.set_index i).next_sample = .ok (v, s2) ∧
      0 ≤ s2._current_idx ∧ s2._current_idx < (s._subset.length : Int) ∧
      pyGet s._subset s2._current_idx = some v := by
  refine ⟨rfl, ?_⟩
  have hsub : (s.set_index i)._subset = s._subset := rfl
  have hlen2 : 0 < (s.set_index i)._subset.length := by rw [hsub]; exact hpos
  have hnn : 0 ≤ ((s.set_index i)._current_idx + 1) %
      ((s.set_index i)._subset.length : Int) :=
    Int.emod_nonneg _ (by omega)
  have hlt : ((s.set_index i)._current_idx + 1) %
      ((s.set_index i)._subset.length : Int) <
      ((s.set_index i)._subset.length : Int) :=
    Int.emod_lt_of_pos _ (by omega)
  rw [next_sample_spec (s.set_index i) hlen2]
  exact ⟨_, _, rfl, hnn, hlt, pyGet_valid_some _ _ hnn hlt⟩

/-- Witness for C10 on the subset [10,20,30] after set_index (-7): next_sample
lands on index 0 and returns 10. -/
theorem C10_next_sample_restores_invariant_witness :
    0 < (⟨[10, 20, 30], 0⟩ : Viewer.Subset Nat)._subset.length ∧
    (((⟨[10, 20, 30], 0⟩ : Viewer.Subset Nat).set_index (-7))._current_idx = -7 ∧
    ∃ v s2, ((⟨[10, 20, 30], 0⟩ : Viewer.Subset Nat).set_index (-7)).next_sample =
        .ok (v, s2) ∧
      0 ≤ s2._current_idx ∧
      s2._current_idx < ((⟨[10, 20, 30], 0⟩ : Viewer.Subset Nat)._subset.length : Int) ∧
      pyGet (⟨[10, 20, 30], 0⟩ : Viewer.Subset Nat)._subset s2._current_idx = some v) :=
  ⟨by decide,
    C10_next_sample_restores_invariant (⟨[10, 20, 30], 0⟩ : Viewer.Subset Nat)
      (-7) (by decide)⟩

theorem rotate_point_zero (pivot p : ℝ × ℝ) : rotate_point pivot p 0 = p := by
  obtain ⟨p1, p2⟩ := p
  simp only [rotate_point, Real.cos_zero, Real.sin_zero, mul_one, mul_zero,
    sub_zero, Prod.mk.injEq]
  constructor <;> ring

theorem rotate_rectangle_zero (pts : List (ℝ × ℝ)) :
    rotate_rectangle pts 0 = pts := by
  cases pts with
  | nil => rfl
  | cons p0 rest => simp [rotate_rectangle, rotate_point_zero]

/-- C1: for every MSRA-TD500 record of seven whitespace-separated tokens
`index difficult x y w h angle` whose index, x, y, w, h parse as integers
(and whose angle parses as a float), the constructed annotation object
(a) builds the corners (x,y), (x,y+h), (x+w,y+h), (x+w,y) in the order
top-left, bottom-left, bottom-right, top-right, (b) rotates all four with
the geometry module's rotate_rectangle at the parsed angle, (c) stores the
enclosing axis-aligned box (min/max of the rotated coordinates), and
(d) sets difficult to true exactly when the difficult token is "1". -/
theorem C1_record_normalization (s t0 t1 t2 t3 t4 t5 t6 : String)
    (i x y w h : Int) (a : Int × Int)
    (hsplit : pySplit s = [t0, t1, t2, t3, t4, t5, t6])
    (h0 : pyInt t0 = some i) (h2 : pyInt t2 = some x) (h3 : pyInt t3 = some y)
    (h4 : pyInt t4 = some w) (h5 : pyInt t5 = some h)
    (h6 : pyFloat t6 = some a) :
    ∃ ann : MSRA_annot, MSRA_annot.ofString s = .ok ann ∧
      (ann.x1 = listMin ((rotate_rectangle
          [((x : ℝ), (y : ℝ)), ((x : ℝ), (y : ℝ) + (h : ℝ)),
           ((x : ℝ) + (w : ℝ), (y : ℝ) + (h : ℝ)),
           ((x : ℝ) + (w : ℝ), (y : ℝ))] ((decVal a : ℝ))).map Prod.fst) ∧
       ann.y1 = listMin ((rotate_rectangle
          [((x : ℝ), (y : ℝ)), ((x : ℝ), (y : ℝ) + (h : ℝ)),
           ((x : ℝ) + (w : ℝ), (y : ℝ) + (h : ℝ)),
           ((x : ℝ) + (w : ℝ), (y : ℝ))] ((decVal a : ℝ))).map Prod.snd) ∧
       ann.x2 = listMax ((rotate_rectangle
          [((x : ℝ), (y : ℝ)), ((x : ℝ), (y : ℝ) + (h : ℝ)),
           ((x : ℝ) + (w : ℝ), (y : ℝ) + (h : ℝ)),
           ((x : ℝ) + (w : ℝ), (y : ℝ))] ((decVal a : ℝ))).map Prod.fst) ∧
       ann.y2 = listMax ((rotate_rectangle
          [((x : ℝ), (y : ℝ)), ((x : ℝ), (y : ℝ) + (h : ℝ)),
           ((x : ℝ) + (w : ℝ), (y : ℝ) + (h : ℝ)),
           ((x : ℝ) + (w : ℝ), (y : ℝ))] ((decVal a : ℝ))).map Prod.snd)) ∧
      ((ann.difficult = true) ↔ t1 = "1") ∧ ann.idx = i := by
  simp only [MSRA_annot.ofString, hsplit, h0, h2, h3, h4, h5, h6]
  refine ⟨_, rfl, ?_, ?_⟩
  · simp [MSRA_annot.build, normalize_bboxes]
  · constructor
    · simp only [MSRA_annot.build]
      exact ⟨fun hb => by simpa [beq_iff_eq] using hb, fun he => by simp [he]⟩
    · rfl

/-- Witness for C1 on the record "3 1 5 6 7 8 2.5". -/
theorem C1_record_normalization_witness :
    pySplit "3 1 5 6 7 8 2.5" = ["3", "1", "5", "6", "7", "8", "2.5"] ∧
    pyInt "3" = some 3 ∧ pyInt "5" = some 5 ∧ pyInt "6" = some 6 ∧
    pyInt "7" = some 7 ∧ pyInt "8" = some 8 ∧
    pyFloat "2.5" = some (25, -1) ∧
    (∃ ann : MSRA_annot, MSRA_annot.ofString "3 1 5 6 7 8 2.5" = .ok ann ∧
      (ann.x1 = listMin ((rotate_rectangle
          [(((5 : Int) : ℝ), ((6 : Int) : ℝ)),
           (((5 : Int) : ℝ), ((6 : Int) : ℝ) + ((8 : Int) : ℝ)),
           (((5 : Int) : ℝ) + ((7 : Int) : ℝ), ((6 : Int) : ℝ) + ((8 : Int) : ℝ)),
           (((5 : Int) : ℝ) + ((7 : Int) : ℝ), ((6 : Int) : ℝ))]
          ((decVal (25, -1) : ℝ))).map Prod.fst) ∧
       ann.y1 = listMin ((rotate_rectangle
          [(((5 : Int) : ℝ), ((6 : Int) : ℝ)),
           (((5 : Int) : ℝ), ((6 : Int) : ℝ) + ((8 : Int) : ℝ)),
           (((5 : Int) : ℝ) + ((7 : Int) : ℝ), ((6 : Int) : ℝ) + ((8 : Int) : ℝ)),
           (((5 : Int) : ℝ) + ((7 : Int) : ℝ), ((6 : Int) : ℝ))]
          ((decVal (25, -1) : ℝ))).map Prod.snd) ∧
       ann.x2 = listMax ((rotate_rectangle
          [(((5 : Int) : ℝ), ((6 : Int) : ℝ)),
           (((5 : Int) : ℝ), ((6 : Int) : ℝ) + ((8 : Int) : ℝ)),
           (((5 : Int) : ℝ) + ((7 : Int) : ℝ), ((6 : Int) : ℝ) + ((8 : Int) : ℝ)),
           (((5 : Int) : ℝ) + ((7 : Int) : ℝ), ((6 : Int) : ℝ))]
          ((decVal (25, -1) : ℝ))).map Prod.fst) ∧
       ann.y2 = listMax ((rotate_rectangle
          [(((5 : Int) : ℝ), ((6 : Int) : ℝ)),
           (((5 : Int) : ℝ), ((6 : Int) : ℝ) + ((8 : Int) : ℝ)),
           (((5 : Int) : ℝ) + ((7 : Int) : ℝ), ((6 : Int) : ℝ) + ((8 : Int) : ℝ)),
           (((5 : Int) : ℝ) + ((7 : Int) : ℝ), ((6 : Int) : ℝ))]
          ((decVal (25, -1) : ℝ))).map Prod.snd)) ∧
      ((ann.difficult = true) ↔ ("1" : String) = "1") ∧ ann.idx = 3) :=
  ⟨by decide, by decide, by decide, by decide, by decide, by decide, by decide,
    C1_record_normalization "3 1 5 6 7 8 2.5" "3" "1" "5" "6" "7" "8" "2.5"
      3 5 6 7 8 (25, -1) (by decide) (by decide) (by decide) (by decide)
      (by decide) (by decide) (by decide)⟩

/-- C2: for every MSRA-TD500 record whose angle token parses to the value 0,
the constructed annotation's box is exactly the unrotated one:
(x1, y1, x2, y2) = (x, y, x+w, y+h) (w and h are the box's width and height,
hence non-negative in a record of the format), and difficult = false when
the difficult token is "0". -/
theorem C2_zero_angle_identity (s t0 t1 t2 t3 t4 t5 t6 : String)
    (i x y w h : Int) (a : Int × Int)
    (hsplit : pySplit s = [t0, t1, t2, t3, t4, t5, t6])
    (h0 : pyInt t0 = some i) (h2 : pyInt t2 = some x) (h3 : pyInt t3 = some y)
    (h4 : pyInt t4 = some w) (h5 : pyInt t5 = some h)
    (h6 : pyFloat t6 = some a) (ha : a.1 = 0)
    (hw : 0 ≤ w) (hh : 0 ≤ h) :
    ∃ ann : MSRA_annot, MSRA_annot.ofString s = .ok ann ∧
      ann.x1 = (x : ℝ) ∧ ann.y1 = (y : ℝ) ∧
      ann.x2 = (x : ℝ) + (w : ℝ) ∧ ann.y2 = (y : ℝ) + (h : ℝ) ∧
      (t1 = "0" → ann.difficult = false) := by
  have hwR : (0 : ℝ) ≤ (w : ℝ) := by exact_mod_cast hw
  have hhR : (0 : ℝ) ≤ (h : ℝ) := by exact_mod_cast hh
  have hval : ((decVal a : ℚ) : ℝ) = 0 := by
    simp [decVal, ha]
  simp only [MSRA_annot.ofString, hsplit, h0, h2, h3, h4, h5, h6]
  have hminx : (x : ℝ) ⊓ ((x : ℝ) + (w : ℝ)) = (x : ℝ) :=
    min_eq_left (by linarith)
  have hminy : (y : ℝ) ⊓ ((y : ℝ) + (h : ℝ)) = (y : ℝ) :=
    min_eq_left (by linarith)
  have hmaxx : (x : ℝ) ⊔ ((x : ℝ) + (w : ℝ)) = (x : ℝ) + (w : ℝ) :=
    max_eq_right (by linarith)
  have hmaxy : (y : ℝ) ⊔ ((y : ℝ) + (h : ℝ)) = (y : ℝ) + (h : ℝ) :=
    max_eq_right (by linarith)
  refine ⟨_, rfl, ?_, ?_, ?_, ?_, ?_⟩
  · simp only [MSRA_annot.build, normalize_bboxes, hval, rotate_rectangle_zero,
      rotate_point_zero, List.map, listMin, List.foldl, min_self]
    rw [hminx, hminx]
  · simp only [MSRA_annot.build, normalize_bboxes, hval, rotate_rectangle_zero,
      rotate_point_zero, List.map, listMin, List.foldl]
    rw [hminy, hminy, min_self]
  · simp only [MSRA_annot.build, normalize_bboxes, hval, rotate_rectangle_zero,
      rotate_point_zero, List.map, listMax, List.foldl, max_self]
    rw [hmaxx, max_self]
  · simp only [MSRA_annot.build, normalize_bboxes, hval, rotate_rectangle_zero,
      rotate_point_zero, List.map, listMax, List.foldl]
    rw [hmaxy, max_self]
    exact max_eq_left (by linarith)
  · intro ht
    subst ht
    rfl

/-- Witness for C2 on the spec's own example record "1 0 10 20 30 40 0.0",
whose box is (10, 20, 40, 60) with difficult = false. -/
theorem C2_zero_angle_identity_witness :
    pySplit "1 0 10 20 30 40 0.0" = ["1", "0", "10", "20", "30", "40", "0.0"] ∧
    pyInt "1" = some 1 ∧ pyInt "10" = some 10 ∧ pyInt "20" = some 20 ∧
    pyInt "30" = some 30 ∧ pyInt "40" = some 40 ∧
    pyFloat "0.0" = some (0, -1) ∧ ((0, -1) : Int × Int).1 = 0 ∧
    (0 : Int) ≤ 30 ∧ (0 : Int) ≤ 40 ∧
    (∃ ann : MSRA_annot,
      MSRA_annot.ofString "1 0 10 20 30 40 0.0" = .ok ann ∧
      ann.x1 = ((10 : Int) : ℝ) ∧ ann.y1 = ((20 : Int) : ℝ) ∧
      ann.x2 = ((10 : Int) : ℝ) + ((30 : Int) : ℝ) ∧
      ann.y2 = ((20 : Int) : ℝ) + ((40 : Int) : ℝ) ∧
      (("0" : String) = "0" → ann.difficult = false)) :=
  ⟨by decide, by decide, by decide, by decide, by decide, by decide, by decide,
    rfl, by decide, by decide,
    C2_zero_angle_identity "1 0 10 20 30 40 0.0" "1" "0" "10" "20" "30" "40"
      "0.0" 1 10 20 30 40 (0, -1) (by decide) (by decide) (by decide)
      (by decide) (by decide) (by decide) (by decide) rfl (by decide)
      (by decide)⟩

theorem sin_ninety_pos : 0 < Real.sin 90 := by
  have hlt : Real.pi < 3.15 := Real.pi_lt_d2
  have hgt : 3.14 < Real.pi := Real.pi_gt_d2
  have h : Real.sin 90 = Real.sin (90 - (14 : ℤ) * (2 * Real.pi)) :=
    (Real.sin_sub_int_mul_two_pi 90 14).symm
  rw [h]
  apply Real.sin_pos_of_pos_of_lt_pi <;> push_cast <;> linarith

theorem cos_ninety_neg : Real.cos 90 < 0 := by
  have hlt : Real.pi < 3.15 := Real.pi_lt_d2
  have hgt : 3.14 < Real.pi := Real.pi_gt_d2
  have h : Real.cos 90 = Real.cos (90 - (14 : ℤ) * (2 * Real.pi)) :=
    (Real.cos_sub_int_mul_two_pi 90 14).symm
  rw [h]
  apply Real.cos_neg_of_pi_div_two_lt_of_lt <;> push_cast <;> linarith

theorem sin_sub_cos_ninety_gt_one : 1 < Real.sin 90 - Real.cos 90 := by
  have hs := sin_ninety_pos
  have hc := cos_ninety_neg
  have hpyth := Real.sin_sq_add_cos_sq 90
  nlinarith [mul_pos hs (show (0 : ℝ) < -Real.cos 90 by linarith)]

theorem listMin4_le_second (a b c d : ℝ) : listMin [a, b, c, d] ≤ b := by
  simp only [listMin, List.foldl]
  exact le_trans (le_trans (min_le_left _ _) (min_le_left _ _)) (min_le_right _ _)

theorem listMin4_le_third (a b c d : ℝ) : listMin [a, b, c, d] ≤ c := by
  simp only [listMin, List.foldl]
  exact le_trans (min_le_left _ _) (min_le_right _ _)

theorem listMax4_ge_first (a b c d : ℝ) : a ≤ listMax [a, b, c, d] := by
  simp only [listMax, List.foldl]
  exact le_trans (le_trans le_sup_left le_sup_left) le_sup_left

theorem listMax4_ge_fourth (a b c d : ℝ) : d ≤ listMax [a, b, c, d] := by
  simp only [listMax, List.foldl]
  exact le_sup_right

theorem rec3_angle_value : ((decVal (900, -1) : ℚ) : ℝ) = 90 := by
  rw [decVal]
  push_cast
  norm_num

theorem rec3_normalize :
    normalize_bboxes 0 0 10 10 (decVal (900, -1)) =
      (listMin [0, -10 * Real.sin 90, 10 * Real.cos 90 - 10 * Real.sin 90,
          10 * Real.cos 90],
       listMin [0, 10 * Real.cos 90, 10 * Real.sin 90 + 10 * Real.cos 90,
          10 * Real.sin 90],
       listMax [0, -10 * Real.sin 90, 10 * Real.cos 90 - 10 * Real.sin 90,
          10 * Real.cos 90],
       listMax [0, 10 * Real.cos 90, 10 * Real.sin 90 + 10 * Real.cos 90,
          10 * Real.sin 90]) := by
  simp only [normalize_bboxes, rec3_angle_value, rotate_rectangle, List.map,
    rotate_point]
  norm_num

theorem rec3_facts :
    ∃ ann : MSRA_annot, MSRA_annot.ofString "2 1 0 0 10 10 90.0" = .ok ann ∧
      ann.difficult = true ∧ ann.idx = 2 ∧
      10 < ann.x2 - ann.x1 ∧ 10 < ann.y2 - ann.y1 := by
  have hsplit : pySplit "2 1 0 0 10 10 90.0" =
      ["2", "1", "0", "0", "10", "10", "90.0"] := by decide
  have hof : MSRA_annot.ofString "2 1 0 0 10 10 90.0" =
      .ok (MSRA_annot.build "1" 2 0 0 10 10 (decVal (900, -1))) := by
    simp only [MSRA_annot.ofString, hsplit,
      show pyInt "2" = some 2 from by decide,
      show pyInt "0" = some 0 from by decide,
      show pyInt "10" = some 10 from by decide,
      show pyFloat "90.0" = some (900, -1) from by decide]
  refine ⟨_, hof, rfl, rfl, ?_, ?_⟩
  · show (10 : ℝ) < (normalize_bboxes 0 0 10 10 (decVal (900, -1))).2.2.1 -
      (normalize_bboxes 0 0 10 10 (decVal (900, -1))).1
    rw [rec3_normalize]
    have h1 := listMin4_le_third 0 (-10 * Real.sin 90)
      (10 * Real.cos 90 - 10 * Real.sin 90) (10 * Real.cos 90)
    have h2 := listMax4_ge_first 0 (-10 * Real.sin 90)
      (10 * Real.cos 90 - 10 * Real.sin 90) (10 * Real.cos 90)
    have h3 := sin_sub_cos_ninety_gt_one
    linarith
  · show (10 : ℝ) < (normalize_bboxes 0 0 10 10 (decVal (900, -1))).2.2.2 -
      (normalize_bboxes 0 0 10 10 (decVal (900, -1))).2.1
    rw [rec3_normalize]
    have h1 := listMin4_le_second 0 (10 * Real.cos 90)
      (10 * Real.sin 90 + 10 * Real.cos 90) (10 * Real.sin 90)
    have h2 := listMax4_ge_fourth 0 (10 * Real.cos 90)
      (10 * Real.sin 90 + 10 * Real.cos 90) (10 * Real.sin 90)
    have h3 := sin_sub_cos_ninety_gt_one
    linarith

/-- C3 counterexample: on the record "2 1 0 0 10 10 90.0" the enclosing box
does NOT swap width and height with the unrotated 10×10 box — neither
dimension equals 10 — because the angle is applied in radians, where 90.0 is
not a quarter-turn. -/
theorem C3_quarter_turn_counterexample :
    ((MSRA_annot.ofString "2 1 0 0 10 10 90.0").toOption.map
        (fun ann => ann.x2 - ann.x1)) ≠ some 10 ∧
    ((MSRA_annot.ofString "2 1 0 0 10 10 90.0").toOption.map
        (fun ann => ann.y2 - ann.y1)) ≠ some 10 := by
  obtain ⟨ann, hof, hdiff, hidx, hx, hy⟩ := rec3_facts
  rw [hof]
  constructor
  · intro hcon
    have : ann.x2 - ann.x1 = 10 := by
      simpa [Except.toOption] using hcon
    linarith
  · intro hcon
    have : ann.y2 - ann.y1 = 10 := by
      simpa [Except.toOption] using hcon
    linarith

/-- C3 (amended): parsing the record "2 1 0 0 10 10 90.0" succeeds with
difficult = true and idx = 2, but the angle token is applied in radians
(§4.2), under which 90.0 is not a quarter-turn: instead of swapping width
and height (which for this 10×10 box would leave both at 10), both
dimensions of the enclosing axis-aligned box strictly exceed 10. -/
theorem C3_radians_enclosing_box :
    ∃ ann : MSRA_annot, MSRA_annot.ofString "2 1 0 0 10 10 90.0" = .ok ann ∧
      ann.difficult = true ∧ ann.idx = 2 ∧
      10 < ann.x2 - ann.x1 ∧ 10 < ann.y2 - ann.y1 :=
  rec3_facts


theorem ofString_error_of_malformed (s : String)
    (hm : malformedLine s = true) :
    MSRA_annot.ofString s = .error .valueError := by
  unfold malformedLine at hm
  unfold MSRA_annot.ofString
  split
  · next t0 t1 t2 t3 t4 t5 t6 heq =>
    rw [heq] at hm
    simp only at hm
    split
    · next i x y w h a h0 h2 h3 h4 h5 h6 =>
      rw [h0, h2, h3, h4, h5, h6] at hm
      simp at hm
    · rfl
  · rfl

theorem ofString_ok_or_valueError (s : String) :
    (∃ a, MSRA_annot.ofString s = .ok a) ∨
      MSRA_annot.ofString s = .error .valueError := by
  unfold MSRA_annot.ofString
  split
  · split
    · exact .inl ⟨_, rfl⟩
    · exact .inr rfl
  · exact .inr rfl

/-- C6 (amended): a malformed record — wrong token count or a non-numeric
index, x, y, w, h or angle field — makes the whole annotation file read fail
fast with the uncaught ValueError that the tuple unpacking or the int()/
float() conversion raises; no record is caught and skipped.  The exception
carries no file or line information: no ParseError class exists in the
code. -/
theorem C6_malformed_record_fails_read (lines : List String) (l : String)
    (hmem : l ∈ lines) (hm : malformedLine l = true) :
    read_annot_file lines = .error .valueError := by
  induction lines with
  | nil => cases hmem
  | cons hd tl ih =>
    unfold read_annot_file
    rcases List.mem_cons.mp hmem with rfl | h2
    · rw [ofString_error_of_malformed l hm]
    · rcases ofString_ok_or_valueError hd with ⟨a, ha⟩ | ha
      · rw [ha, ih h2]
        rfl
      · rw [ha]

/-- Witness for C6: a file whose second line has six tokens fails the whole
read with ValueError even though its first line is well-formed. -/
theorem C6_malformed_record_fails_read_witness :
    "1 0 10 20 30 40" ∈ ["0 0 1 1 2 2 0.0", "1 0 10 20 30 40"] ∧
    malformedLine "1 0 10 20 30 40" = true ∧
    read_annot_file ["0 0 1 1 2 2 0.0", "1 0 10 20 30 40"] =
      .error .valueError :=
  ⟨by decide, by decide,
    C6_malformed_record_fails_read ["0 0 1 1 2 2 0.0", "1 0 10 20 30 40"]
      "1 0 10 20 30 40" (by decide) (by decide)⟩

/-- C6 counterexample: the malformed record (six tokens) fails the file read
with the bare ValueError constructor, which carries no file or line
information — not with a ParseError identifying the offending file and
line (no such exception exists in the code). -/
theorem C6_no_parse_error_counterexample :
    read_annot_file ["1 0 10 20 30 40"] = .error .valueError ∧
    PyErr.valueError ≠ PyErr.parseError "annotations.gt" 1 := by
  constructor
  · have h := ofString_error_of_malformed "1 0 10 20 30 40" (by decide)
    unfold read_annot_file
    rw [h]
  · decide

theorem insertFile_length (x : String × List String)
    (l : List (String × List String)) :
    (insertFile x l).length = l.length + 1 := by
  induction l with
  | nil => rfl
  | cons y ys ih =>
    unfold insertFile
    by_cases hc : nameLe x.1 y.1 = true
    · rw [if_pos hc]
      rfl
    · rw [if_neg hc]
      simp [ih]

theorem sortFiles_length (l : PyDir) : (sortFiles l).length = l.length := by
  induction l with
  | nil => rfl
  | cons x xs ih =>
    unfold sortFiles at ih ⊢
    simp only [List.foldr, insertFile_length, ih, List.length_cons]

theorem buildSamples_ok
    (l : List ((String × List String) × (String × List String)))
    (hok : ∀ p ∈ l, ∃ as, read_annot_file p.1.2 = .ok as) :
    ∃ samples, buildSamples l = .ok samples ∧ samples.length = l.length := by
  induction l with
  | nil => exact ⟨[], rfl, rfl⟩
  | cons p ps ih =>
    obtain ⟨as, has⟩ := hok p (List.mem_cons_self _ _)
    obtain ⟨rest, hrest, hlen⟩ := ih (fun q hq => hok q (List.mem_cons_of_mem _ hq))
    refine ⟨⟨p.2.1, as⟩ :: rest, ?_, by simp [hlen]⟩
    unfold buildSamples
    rw [has, hrest]
    rfl

/-- C7 (amended): image and annotation files that cannot be paired
one-to-one are silently dropped, not reported: read_set zips the two sorted
listings, truncating to the shorter one, so whenever every zipped annotation
file parses, the read succeeds with exactly
min(#gt files, #JPG files) samples and no MissingResourceError is raised
for the surplus files. -/
theorem C7_unpaired_files_silently_dropped (set_dir : PyDir)
    (hok : ∀ p ∈ (sortFiles (set_dir.filter (fun f => nameEndsWith f.1 ".gt"))).zip
        (sortFiles (set_dir.filter (fun f => nameEndsWith f.1 ".JPG"))),
        ∃ as, read_annot_file p.1.2 = .ok as) :
    ∃ samples, read_set set_dir = .ok samples ∧
      samples.length = min
        (set_dir.filter (fun f => nameEndsWith f.1 ".gt")).length
        (set_dir.filter (fun f => nameEndsWith f.1 ".JPG")).length := by
  obtain ⟨samples, hs, hlen⟩ := buildSamples_ok _ hok
  refine ⟨samples, hs, ?_⟩
  rw [hlen, List.length_zip, sortFiles_length, sortFiles_length]

/-- Witness for C7 on a directory with two .gt files and one .JPG file: the
read succeeds with a single sample. -/
theorem C7_unpaired_files_silently_dropped_witness :
    (∀ p ∈ (sortFiles (([("b.gt", [] ), ("a.gt", [] ), ("a.JPG", [] )] :
          PyDir).filter (fun f => nameEndsWith f.1 ".gt"))).zip
        (sortFiles (([("b.gt", [] ), ("a.gt", [] ), ("a.JPG", [] )] :
          PyDir).filter (fun f => nameEndsWith f.1 ".JPG"))),
        ∃ as, read_annot_file p.1.2 = .ok as) ∧
    (∃ samples,
      read_set [("b.gt", [] ), ("a.gt", [] ), ("a.JPG", [] )] = .ok samples ∧
      samples.length = min
        (([("b.gt", [] ), ("a.gt", [] ), ("a.JPG", [] )] :
          PyDir).filter (fun f => nameEndsWith f.1 ".gt")).length
        (([("b.gt", [] ), ("a.gt", [] ), ("a.JPG", [] )] :
          PyDir).filter (fun f => nameEndsWith f.1 ".JPG")).length) := by
  have hok : ∀ p ∈ (sortFiles (([("b.gt", [] ), ("a.gt", [] ), ("a.JPG", [] )] :
        PyDir).filter (fun f => nameEndsWith f.1 ".gt"))).zip
      (sortFiles (([("b.gt", [] ), ("a.gt", [] ), ("a.JPG", [] )] :
        PyDir).filter (fun f => nameEndsWith f.1 ".JPG"))),
      ∃ as, read_annot_file p.1.2 = .ok as := by
    intro p hp
    have hz : (sortFiles (([("b.gt", [] ), ("a.gt", [] ), ("a.JPG", [] )] :
          PyDir).filter (fun f => nameEndsWith f.1 ".gt"))).zip
        (sortFiles (([("b.gt", [] ), ("a.gt", [] ), ("a.JPG", [] )] :
          PyDir).filter (fun f => nameEndsWith f.1 ".JPG"))) =
        [(("a.gt", [] ), ("a.JPG", [] ))] := by rfl
    rw [hz] at hp
    have hp2 : p = (("a.gt", [] ), ("a.JPG", [] )) := by
      simpa using hp
    rw [hp2]
    exact ⟨[], rfl⟩
  exact ⟨hok, C7_unpaired_files_silently_dropped _ hok⟩

/-- C7 counterexample: on a subset directory whose files cannot be paired
one-to-one (two .gt files, one .JPG file), the read does not fail with a
MissingResourceError — it succeeds, silently dropping the unpaired b.gt. -/
theorem C7_no_missing_resource_counterexample :
    read_set [("b.gt", [] ), ("a.gt", [] ), ("a.JPG", [] )] =
      .ok [⟨"a.JPG", [] ⟩] ∧
    (∃ samples, read_set [("b.gt", [] ), ("a.gt", [] ), ("a.JPG", [] )] =
      .ok samples) := by
  constructor
  · rfl
  · exact ⟨_, rfl⟩

theorem read_set_nil : read_set [] = .ok [] := rfl

/-- C5 (amended): opening a root with only a `train/` folder succeeds, but
the dataset's subset mapping still carries both keys — pathlib's glob on the
missing `test/` directory yields nothing, so "test" appears as an empty
entry rather than being omitted; it is the navigation layer (ViewerDataset)
that then filters out empty subsets, leaving exactly ["train"]. -/
theorem C5_absent_subset_stored_empty (tdir : PyDir) (ts : List MSRA_sample)
    (hts : read_set tdir = .ok ts) :
    MSRA_dataset.openRoot "root" (some tdir) none =
      .ok ⟨"root", [("train", ts), ("test", [])]⟩ ∧
    MSRA_dataset.get_subsets_names ⟨"root", [("train", ts), ("test", [])]⟩ =
      ["train", "test"] ∧
    (ts ≠ [] → ∃ v,
      ViewerDataset.init ⟨"root", [("train", ts), ("test", [])]⟩ = .ok v ∧
      v.available_subsets = ["train"]) := by
  refine ⟨?_, rfl, ?_⟩
  · unfold MSRA_dataset.openRoot
    simp only [Option.getD, hts, read_set_nil]
  · intro hne
    have hlen : (ts.length != 0) = true := by
      simp only [bne_iff_ne, ne_eq]
      intro h0
      exact hne (List.length_eq_zero.mp h0)
    unfold ViewerDataset.init
    simp only [List.filter, hlen]
    exact ⟨_, rfl, rfl⟩

/-- Witness for C5 on a train directory holding one annotation/image pair
and no test directory. -/
theorem C5_absent_subset_stored_empty_witness :
    read_set [("a.gt", [] ), ("a.JPG", [] )] = .ok [⟨"a.JPG", [] ⟩] ∧
    (MSRA_dataset.openRoot "root" (some [("a.gt", [] ), ("a.JPG", [] )]) none =
      .ok ⟨"root", [("train", [⟨"a.JPG", [] ⟩]), ("test", [])]⟩ ∧
    MSRA_dataset.get_subsets_names
        ⟨"root", [("train", [⟨"a.JPG", [] ⟩]), ("test", [])]⟩ =
      ["train", "test"] ∧
    (([⟨"a.JPG", [] ⟩] : List MSRA_sample) ≠ [] → ∃ v,
      ViewerDataset.init
          ⟨"root", [("train", [⟨"a.JPG", [] ⟩]), ("test", [])]⟩ = .ok v ∧
      v.available_subsets = ["train"])) :=
  ⟨rfl, C5_absent_subset_stored_empty [("a.gt", [] ), ("a.JPG", [] )]
    [⟨"a.JPG", [] ⟩] rfl⟩

/-- C5 counterexample: opening a root with only a `train/` folder succeeds,
but the dataset's subset names are ["train", "test"], not exactly
["train"]: the absent subset appears as an empty entry rather than being
omitted from the dataset's mapping. -/
theorem C5_subset_names_counterexample :
    (MSRA_dataset.openRoot "root" (some [("a.gt", [] ), ("a.JPG", [] )])
        none).toOption.map MSRA_dataset.get_subsets_names =
      some ["train", "test"] ∧
    (["train", "test"] : List String) ≠ ["train"] := by
  constructor
  · rfl
  · decide

theorem lookup_none_of_not_mem_keys {β : Type} (l : List (String × β))
    (k : String) (h : k ∉ l.map Prod.fst) : l.lookup k = none := by
  induction l with
  | nil => rfl
  | cons hd tl ih =>
    simp only [List.map, List.mem_cons, not_or] at h
    have hne : (k == hd.1) = false := beq_eq_false_iff_ne.mpr h.1
    simp only [List.lookup, hne]
    exact ih h.2

theorem lookup_cons_self {β : Type} (a : String) (b : β)
    (l : List (String × β)) : ((a, b) :: l).lookup a = some b := by
  simp [List.lookup]

/-- C8 (amended): constructing the navigation state over a dataset whose
subsets are all empty fails — but with the IndexError that
`list(self._subsets.keys())[0]` raises on the empty filtered dict, not with
an EmptyDatasetError (no such class exists in the code); when at least one
subset is non-empty, construction succeeds, the current subset name is among
the available (non-empty) subsets, and the current subset resolves. -/
theorem C8_empty_dataset_init (d : MSRA_dataset) :
    ((∀ p ∈ d._subsets, p.2.length = 0) →
      ViewerDataset.init d = .error .indexError) ∧
    ((∃ p ∈ d._subsets, p.2.length ≠ 0) →
      ∃ v, ViewerDataset.init d = .ok v ∧
        v._current_subset ∈ v.available_subsets ∧
        ∃ sub, v.get_current_subset = .ok sub) := by
  constructor
  · intro hall
    have hfil : d._subsets.filter (fun p => p.2.length != 0) = [] := by
      rw [List.filter_eq_nil_iff]
      intro p hp
      simp [hall p hp]
    unfold ViewerDataset.init
    rw [hfil]
    rfl
  · intro ⟨p, hp, hne⟩
    have hfil : d._subsets.filter (fun p => p.2.length != 0) ≠ [] := by
      intro hnil
      have := List.filter_eq_nil_iff.mp hnil p hp
      simp [hne] at this
    obtain ⟨hd, tl, heq⟩ := List.exists_cons_of_ne_nil hfil
    unfold ViewerDataset.init
    rw [heq]
    simp only [List.map]
    refine ⟨_, rfl, ?_, ?_⟩
    · simp [ViewerDataset.available_subsets]
    · exact ⟨_, by
        unfold ViewerDataset.get_current_subset
        rw [lookup_cons_self]⟩

/-- Witness for C8 on a dataset whose train subset is empty and whose test
subset holds one sample: construction succeeds with "test" current. -/
theorem C8_empty_dataset_init_witness :
    (∃ p ∈ (⟨"root", [("train", []), ("test", [⟨"x.JPG", [] ⟩])]⟩ :
        MSRA_dataset)._subsets, p.2.length ≠ 0) ∧
    (∃ v, ViewerDataset.init
        ⟨"root", [("train", []), ("test", [⟨"x.JPG", [] ⟩])]⟩ = .ok v ∧
      v._current_subset ∈ v.available_subsets ∧
      ∃ sub, v.get_current_subset = .ok sub) :=
  ⟨⟨("test", [⟨"x.JPG", [] ⟩]), by simp, by simp⟩,
    (C8_empty_dataset_init
        ⟨"root", [("train", []), ("test", [⟨"x.JPG", [] ⟩])]⟩).2
      ⟨("test", [⟨"x.JPG", [] ⟩]), by simp, by simp⟩⟩

/-- C8 counterexample: on an all-empty dataset the construction fails with
IndexError, not with an EmptyDatasetError. -/
theorem C8_index_error_counterexample :
    ViewerDataset.init ⟨"root", [("train", []), ("test", [])]⟩ =
      .error .indexError ∧
    ViewerDataset.init ⟨"root", [("train", []), ("test", [])]⟩ ≠
      .error .emptyDatasetError := by
  refine ⟨rfl, ?_⟩
  intro h
  rw [show ViewerDataset.init ⟨"root", [("train", []), ("test", [])]⟩ =
    .error .indexError from rfl] at h
  simp at h

/-- C9 (amended): set_current_subset stores any name unconditionally — it
never raises — and when the name is not among the available subsets every
later delegated dict access fails with KeyError instead. -/
theorem C9_set_current_subset_no_validation (v : ViewerDataset)
    (name : String) :
    (v.set_current_subset name)._current_subset = name ∧
    (name ∉ v.available_subsets →
      (v.set_current_subset name).get_current_subset = .error .keyError) := by
  refine ⟨rfl, fun hn => ?_⟩
  show (match List.lookup name v._subsets with
    | some s => Except.ok s
    | none => Except.error PyErr.keyError) = .error .keyError
  rw [lookup_none_of_not_mem_keys _ _ hn]

/-- Witness for C9: setting "validation" on a viewer over {"train","test"}
stores it and the subsequent current-subset access fails with KeyError. -/
theorem C9_set_current_subset_no_validation_witness :
    ((⟨[("train", ⟨[⟨"a.JPG", [] ⟩], 0⟩), ("test", ⟨[⟨"b.JPG", [] ⟩], 0⟩)],
        "train"⟩ : ViewerDataset).set_current_subset
        "validation")._current_subset = "validation" ∧
    ("validation" ∉ (⟨[("train", ⟨[⟨"a.JPG", [] ⟩], 0⟩),
        ("test", ⟨[⟨"b.JPG", [] ⟩], 0⟩)],
        "train"⟩ : ViewerDataset).available_subsets ∧
      ((⟨[("train", ⟨[⟨"a.JPG", [] ⟩], 0⟩), ("test", ⟨[⟨"b.JPG", [] ⟩], 0⟩)],
          "train"⟩ : ViewerDataset).set_current_subset
          "validation").get_current_subset = .error .keyError) := by
  have hnm : "validation" ∉ (⟨[("train", ⟨[⟨"a.JPG", [] ⟩], 0⟩),
      ("test", ⟨[⟨"b.JPG", [] ⟩], 0⟩)],
      "train"⟩ : ViewerDataset).available_subsets := by
    simp [ViewerDataset.available_subsets]
  exact ⟨(C9_set_current_subset_no_validation _ "validation").1,
    hnm, (C9_set_current_subset_no_validation
      ⟨[("train", ⟨[⟨"a.JPG", [] ⟩], 0⟩), ("test", ⟨[⟨"b.JPG", [] ⟩], 0⟩)],
        "train"⟩ "validation").2 hnm⟩

/-- C9 counterexample: set_current_subset("validation") on a dataset whose
subsets are {"train","test"} does not fail with an InvalidSubsetError — it
is a plain assignment that stores the invalid name (no InvalidSubsetError
class exists in the code). -/
theorem C9_invalid_name_accepted_counterexample :
    ((⟨[("train", ⟨[⟨"a.JPG", [] ⟩], 0⟩), ("test", ⟨[⟨"b.JPG", [] ⟩], 0⟩)],
        "train"⟩ : ViewerDataset).set_current_subset
        "validation")._current_subset = "validation" ∧
    "validation" ∉ ((⟨[("train", ⟨[⟨"a.JPG", [] ⟩], 0⟩),
        ("test", ⟨[⟨"b.JPG", [] ⟩], 0⟩)],
        "train"⟩ : ViewerDataset).set_current_subset
        "validation").available_subsets := by
  refine ⟨rfl, ?_⟩
  simp [ViewerDataset.available_subsets, ViewerDataset.set_current_subset]
